import Mathlib

/-! Shallow embedding of the Platform-CLI resource manager: the ownership
tag policy, the EC2, S3 and Route53 controllers of the command line front
end, and the corresponding handlers of the web UI front end. Provider API
calls and interactive confirmation prompts are recorded as an event trace;
the provider itself is modelled by explicit state (instances, buckets,
hosted zones). -/

namespace PlatformCli

/-- Tag lists as the provider returns them: Key and Value pairs. The Python
code turns such a list into a dict with a comprehension, so a later binding
of the same key wins. -/
abbrev Tags := List (String × String)

/-- Dict lookup for a tag list built by dict comprehension: the last
binding of a key wins, an absent key gives none. -/
def dictGet (tags : Tags) (k : String) : Option String :=
  tags.foldl (fun acc p => if p.1 = k then some p.2 else acc) none

/-- Environment configuration: TAG_CREATED_BY, TAG_OWNER and AWS_REGION. -/
structure Config where
  tagCreatedBy : String
  tagOwner : String
  region : String
deriving Repr, DecidableEq

/-- Default environment values from the source. -/
def defaultConfig : Config :=
  { tagCreatedBy := "platform-cli", tagOwner := "student", region := "us-east-1" }

/-- Ownership predicate. Every guard and list filter in the source is the
expression comparing the CreatedBy entry of the tag dict with the
configured TAG_CREATED_BY value. -/
def isManaged (cfg : Config) (tags : Tags) : Bool :=
  dictGet tags "CreatedBy" == some cfg.tagCreatedBy

/-- Lifecycle states of a compute instance. -/
inductive InstState
  | pending
  | running
  | stopping
  | stopped
  | terminated
deriving Repr, DecidableEq

/-- A compute instance as held by the provider. -/
structure Inst where
  instId : String
  instType : String
  keyName : String
  state : InstState
  tags : Tags
  publicIp : Option String
deriving Repr, DecidableEq

/-- Provider-side compute state. -/
structure Ec2State where
  instances : List Inst
deriving Repr, DecidableEq

/-- A DNS record set: name, type, time to live and values. -/
structure RecordSet where
  rname : String
  rtype : String
  ttl : Nat
  rvalues : List String
deriving Repr, DecidableEq

/-- A change request sent to the DNS record-set endpoint. -/
inductive RecordChange
  | upsert (rs : RecordSet)
  | delete (rs : RecordSet)
deriving Repr, DecidableEq

/-- Provider control-plane calls issued by the tool, recorded for trace
reasoning. -/
inductive ProviderCall
  | describeByTagAndState (createdBy : String)
  | describeByTag (createdBy : String)
  | describeById (instId : String)
  | ssmGetParameter (path : String)
  | runInstances (ami instType keyName : String) (tags : Tags)
  | startInstances (instId : String)
  | stopInstances (instId : String)
  | terminateInstances (instId : String)
  | listBuckets
  | getBucketTagging (bucket : String)
  | createBucket (bucket : String) (locConstraint : Option String)
  | putBucketTagging (bucket : String) (tags : Tags)
  | putPublicAccessBlock (bucket : String)
  | deletePublicAccessBlock (bucket : String)
  | listHostedZones
  | listTagsForResource (zoneId : String)
  | getHostedZone (zoneId : String)
  | changeRecordSets (zoneId : String) (change : RecordChange)
deriving Repr, DecidableEq

/-- Calls that mutate provider state, as opposed to read-only describe,
list, get and parameter-store calls. -/
def ProviderCall.isMutating : ProviderCall → Bool
  | .runInstances _ _ _ _ => true
  | .startInstances _ => true
  | .stopInstances _ => true
  | .terminateInstances _ => true
  | .createBucket _ _ => true
  | .putBucketTagging _ _ => true
  | .putPublicAccessBlock _ => true
  | .deletePublicAccessBlock _ => true
  | .changeRecordSets _ _ => true
  | _ => false

/-- Trace events: a provider call, or an interactive confirmation prompt
together with the answer the operator gave. -/
inductive Event
  | call (c : ProviderCall)
  | prompt (message : String) (answer : Bool)
deriving Repr, DecidableEq

/-- Provider calls of a trace, prompts dropped. -/
def callsOf (evts : List Event) : List ProviderCall :=
  evts.filterMap fun e =>
    match e with
    | .call c => some c
    | .prompt _ _ => none

/-- Mutating provider calls of a trace. -/
def mutatingCalls (evts : List Event) : List ProviderCall :=
  (callsOf evts).filter ProviderCall.isMutating

/-- True when the trace contains a confirmation prompt. -/
def hasPrompt (evts : List Event) : Bool :=
  evts.any fun e =>
    match e with
    | .prompt _ _ => true
    | .call _ => false

/-- Outcome kind reported to the operator. -/
inductive OpResult
  | ok
  | invalidConfig
  | quotaExceeded
  | notManaged (resourceId : String)
  | cancelled
  | providerErr (msg : String)
deriving Repr, DecidableEq

/-- Result, event trace and post state of one operation. -/
structure Outcome (σ : Type) where
  result : OpResult
  events : List Event
  state : σ
deriving Repr

/-- Rows, result and event trace of one listing operation. -/
structure ListOut (α : Type) where
  rows : List α
  result : OpResult
  events : List Event
deriving Repr

/-- Allowed instance size classes. -/
def allowedTypes : List String := ["t3.micro", "t3.small"]

/-- Hard cap on concurrently non-terminated managed instances. -/
def maxInstances : Nat := 2

/-- Parameter-store path of the boot image reference. -/
def ssmAmiPath : String :=
  "/aws/service/ami-amazon-linux-latest/amzn2-ami-hvm-x86_64-gp2"

/-- Instance lookup by id, the semantics of a describe call restricted to
one instance id; an unknown id is a provider error. -/
def findInst (st : Ec2State) (instId : String) : Option Inst :=
  st.instances.find? fun i => i.instId == instId

/-- States matched by the instance-state-name filter of the quota count:
running, pending, stopping and stopped. -/
def nonTerminated (s : InstState) : Bool :=
  s == .running || s == .pending || s == .stopping || s == .stopped

/-- Number of instances matching the CreatedBy tag filter and the
non-terminated state filter, the count the create command compares with the
cap. -/
def countManaged (cfg : Config) (st : Ec2State) : Nat :=
  (st.instances.filter fun i =>
    dictGet i.tags "CreatedBy" == some cfg.tagCreatedBy && nonTerminated i.state).length

/-- Set the lifecycle state of one instance. -/
def ec2SetState (st : Ec2State) (instId : String) (s : InstState) : Ec2State :=
  { instances := st.instances.map fun i =>
      if i.instId == instId then { i with state := s } else i }

/-- CLI ec2 create. Checks the allow-list, counts managed non-terminated
instances against the cap, resolves the boot image via the parameter store
and launches with the Name, CreatedBy and Owner tags. The parameter-store
and launch outcomes are inputs of the model. -/
def cliEc2Create (cfg : Config) (st : Ec2State)
    (ssmResult : Except String String) (runResult : Except String String)
    (instanceType keyName name : String) : Outcome Ec2State :=
  if !(allowedTypes.contains instanceType) then
    { result := .invalidConfig, events := [], state := st }
  else if maxInstances ≤ countManaged cfg st then
    { result := .quotaExceeded
      events := [.call (.describeByTagAndState cfg.tagCreatedBy)]
      state := st }
  else
    match ssmResult with
    | .error e =>
        { result := .providerErr e
          events := [.call (.describeByTagAndState cfg.tagCreatedBy),
                     .call (.ssmGetParameter ssmAmiPath)]
          state := st }
    | .ok ami =>
        let newTags : Tags :=
          [("Name", name), ("CreatedBy", cfg.tagCreatedBy), ("Owner", cfg.tagOwner)]
        match runResult with
        | .error e =>
            { result := .providerErr e
              events := [.call (.describeByTagAndState cfg.tagCreatedBy),
                         .call (.ssmGetParameter ssmAmiPath),
                         .call (.runInstances ami instanceType keyName newTags)]
              state := st }
        | .ok newId =>
            { result := .ok
              events := [.call (.describeByTagAndState cfg.tagCreatedBy),
                         .call (.ssmGetParameter ssmAmiPath),
                         .call (.runInstances ami instanceType keyName newTags)]
              state := { instances := st.instances ++
                [{ instId := newId, instType := instanceType, keyName := keyName,
                   state := .pending, tags := newTags, publicIp := none }] } }

/-- CLI ec2 list: describe with the CreatedBy tag filter, then skip
terminated instances while printing. -/
def cliEc2List (cfg : Config) (st : Ec2State) : ListOut Inst :=
  { rows := (st.instances.filter fun i =>
        dictGet i.tags "CreatedBy" == some cfg.tagCreatedBy).filter
        (fun i => !(i.state == .terminated))
    result := .ok
    events := [.call (.describeByTag cfg.tagCreatedBy)] }

/-- CLI ec2 stop: describe the instance, refuse unless the CreatedBy tag
matches, otherwise issue the stop call. -/
def cliStop (cfg : Config) (st : Ec2State) (instId : String) : Outcome Ec2State :=
  match findInst st instId with
  | none =>
      { result := .providerErr "InvalidInstanceID.NotFound"
        events := [.call (.describeById instId)], state := st }
  | some inst =>
      if isManaged cfg inst.tags then
        { result := .ok
          events := [.call (.describeById instId), .call (.stopInstances instId)]
          state := ec2SetState st instId .stopping }
      else
        { result := .notManaged instId
          events := [.call (.describeById instId)], state := st }

/-- CLI ec2 start: same guard shape as stop. -/
def cliStart (cfg : Config) (st : Ec2State) (instId : String) : Outcome Ec2State :=
  match findInst st instId with
  | none =>
      { result := .providerErr "InvalidInstanceID.NotFound"
        events := [.call (.describeById instId)], state := st }
  | some inst =>
      if isManaged cfg inst.tags then
        { result := .ok
          events := [.call (.describeById instId), .call (.startInstances instId)]
          state := ec2SetState st instId .pending }
      else
        { result := .notManaged instId
          events := [.call (.describeById instId)], state := st }

/-- CLI ec2 terminate: guard, then an interactive confirmation prompt; the
terminate call is issued only on a positive answer. -/
def cliTerminate (cfg : Config) (st : Ec2State) (instId : String)
    (confirmAnswer : Bool) : Outcome Ec2State :=
  match findInst st instId with
  | none =>
      { result := .providerErr "InvalidInstanceID.NotFound"
        events := [.call (.describeById instId)], state := st }
  | some inst =>
      if isManaged cfg inst.tags then
        if confirmAnswer then
          { result := .ok
            events := [.call (.describeById instId), .prompt "Are you sure?" true,
                       .call (.terminateInstances instId)]
            state := ec2SetState st instId .terminated }
        else
          { result := .cancelled
            events := [.call (.describeById instId), .prompt "Are you sure?" false]
            state := st }
      else
        { result := .notManaged instId
          events := [.call (.describeById instId)], state := st }

/-- UI launch handler: no allow-list check and no cap check in the handler;
it resolves the image and launches directly. -/
def uiLaunchInstance (cfg : Config) (st : Ec2State)
    (ssmResult : Except String String) (runResult : Except String String)
    (instanceType keyName name : String) : Outcome Ec2State :=
  match ssmResult with
  | .error e =>
      { result := .providerErr e
        events := [.call (.ssmGetParameter ssmAmiPath)], state := st }
  | .ok ami =>
      let newTags : Tags :=
        [("Name", name), ("CreatedBy", cfg.tagCreatedBy), ("Owner", cfg.tagOwner)]
      match runResult with
      | .error e =>
          { result := .providerErr e
            events := [.call (.ssmGetParameter ssmAmiPath),
                       .call (.runInstances ami instanceType keyName newTags)]
            state := st }
      | .ok newId =>
          { result := .ok
            events := [.call (.ssmGetParameter ssmAmiPath),
                       .call (.runInstances ami instanceType keyName newTags)]
            state := { instances := st.instances ++
              [{ instId := newId, instType := instanceType, keyName := keyName,
                 state := .pending, tags := newTags, publicIp := none }] } }

/-- UI instance table: describe with the CreatedBy tag filter, skip
terminated instances. -/
def uiEc2Rows (cfg : Config) (st : Ec2State) : List Inst :=
  (st.instances.filter fun i =>
      dictGet i.tags "CreatedBy" == some cfg.tagCreatedBy).filter
    (fun i => !(i.state == .terminated))

/-- UI Start button handler: issues the start call for the selected id
directly, with no tag fetch and no guard. -/
def uiStart (st : Ec2State) (selectedId : String) : Outcome Ec2State :=
  { result := .ok
    events := [.call (.startInstances selectedId)]
    state := ec2SetState st selectedId .pending }

/-- UI Stop button handler: issues the stop call directly, with no tag
fetch and no guard. -/
def uiStop (st : Ec2State) (selectedId : String) : Outcome Ec2State :=
  { result := .ok
    events := [.call (.stopInstances selectedId)]
    state := ec2SetState st selectedId .stopping }

/-- UI Terminate button handler: issues the terminate call directly, with
no tag fetch, no guard and no confirmation prompt. -/
def uiTerminate (st : Ec2State) (selectedId : String) : Outcome Ec2State :=
  { result := .ok
    events := [.call (.terminateInstances selectedId)]
    state := ec2SetState st selectedId .terminated }

/-- Boolean equality of fallible results, used to derive decidable
equality for states that hold per-item fetch outcomes. -/
def exceptBeq {ε α : Type} [DecidableEq ε] [DecidableEq α] :
    Except ε α → Except ε α → Bool
  | .error e, .error f => decide (e = f)
  | .ok x, .ok y => decide (x = y)
  | _, _ => false

instance {ε α : Type} [DecidableEq ε] [DecidableEq α] : DecidableEq (Except ε α) :=
  fun a b =>
    decidable_of_iff (exceptBeq a b = true) (by cases a <;> cases b <;> simp [exceptBeq])

/-- A storage bucket as held by the provider. The per-bucket tag fetch can
fail (for example when the bucket has no tag set), so its outcome is part
of the state. -/
structure Bucket where
  bname : String
  creationDate : Nat
  tagsResult : Except String Tags
  publicBlocked : Bool
deriving Repr, DecidableEq

/-- Provider-side storage state. -/
structure S3State where
  buckets : List Bucket
deriving Repr, DecidableEq

/-- Bucket lookup by name. -/
def findBucket (st : S3State) (n : String) : Option Bucket :=
  st.buckets.find? fun b => b.bname == n

/-- Location constraint of the region-conditional create call: none for
us-east-1, the explicit region otherwise. -/
def locFor (cfg : Config) : Option String :=
  if cfg.region = "us-east-1" then none else some cfg.region

/-- Rows of the bucket listing: per-bucket tag fetch, failures skipped,
then the CreatedBy filter. -/
def s3ListRows (cfg : Config) (st : S3State) : List Bucket :=
  st.buckets.filter fun b =>
    match b.tagsResult with
    | .error _ => false
    | .ok tags => dictGet tags "CreatedBy" == some cfg.tagCreatedBy

/-- CLI s3 list: list buckets, fetch tags per bucket, skip per-bucket
failures, filter by CreatedBy; per-item failures never surface. -/
def cliS3List (cfg : Config) (st : S3State) : ListOut Bucket :=
  { rows := s3ListRows cfg st
    result := .ok
    events := .call .listBuckets ::
      st.buckets.map fun b => .call (.getBucketTagging b.bname) }

/-- CLI s3 create: lower-case the name; with the public flag, prompt first
and abort on a negative answer; otherwise create (region-conditional
shape), tag, then either remove the public access block or apply all four
block flags. -/
def cliS3Create (cfg : Config) (st : S3State) (bucketName : String)
    (makePublic : Bool) (confirmAnswer : Bool) : Outcome S3State :=
  let name := bucketName.toLower
  if makePublic && !confirmAnswer then
    { result := .cancelled
      events := [.prompt "Are you absolutely sure?" false], state := st }
  else
    let promptEvents : List Event :=
      if makePublic then [.prompt "Are you absolutely sure?" true] else []
    match findBucket st name with
    | some _ =>
        { result := .providerErr "BucketAlreadyExists"
          events := promptEvents ++ [.call (.createBucket name (locFor cfg))]
          state := st }
    | none =>
        let tagged : Tags := [("CreatedBy", cfg.tagCreatedBy), ("Owner", cfg.tagOwner)]
        { result := .ok
          events := promptEvents ++
            [.call (.createBucket name (locFor cfg)),
             .call (.putBucketTagging name tagged)] ++
            (if makePublic then [.call (.deletePublicAccessBlock name)]
             else [.call (.putPublicAccessBlock name)])
          state := { buckets := st.buckets ++
            [{ bname := name, creationDate := 0, tagsResult := .ok tagged,
               publicBlocked := !makePublic }] } }

/-- UI Create Bucket handler: an empty name is rejected with no call; a
public bucket with the risk checkbox unchecked is rejected with no call;
otherwise create, tag and set visibility as in the CLI (the UI does not
lower-case the name). -/
def uiS3Create (cfg : Config) (st : S3State) (bname : String)
    (isPublic : Bool) (confirmAnswer : Bool) : Outcome S3State :=
  if bname = "" then
    { result := .invalidConfig, events := [], state := st }
  else if isPublic && !confirmAnswer then
    { result := .cancelled, events := [], state := st }
  else
    match findBucket st bname with
    | some _ =>
        { result := .providerErr "BucketAlreadyExists"
          events := [.call (.createBucket bname (locFor cfg))]
          state := st }
    | none =>
        let tagged : Tags := [("CreatedBy", cfg.tagCreatedBy), ("Owner", cfg.tagOwner)]
        { result := .ok
          events := [.call (.createBucket bname (locFor cfg)),
                     .call (.putBucketTagging bname tagged)] ++
            (if isPublic then [.call (.deletePublicAccessBlock bname)]
             else [.call (.putPublicAccessBlock bname)])
          state := { buckets := st.buckets ++
            [{ bname := bname, creationDate := 0, tagsResult := .ok tagged,
               publicBlocked := !isPublic }] } }

/-- UI bucket list: same per-bucket tag fetch with skipped failures and the
same CreatedBy filter as the CLI listing. -/
def uiBucketRows (cfg : Config) (st : S3State) : List Bucket :=
  st.buckets.filter fun b =>
    match b.tagsResult with
    | .error _ => false
    | .ok tags => dictGet tags "CreatedBy" == some cfg.tagCreatedBy

/-- A hosted zone as held by the provider; the per-zone tag fetch outcome
is part of the state. -/
structure Zone where
  zoneId : String
  zoneName : String
  tagsResult : Except String Tags
  records : List RecordSet
deriving Repr, DecidableEq

/-- Provider-side DNS state. -/
structure R53State where
  zones : List Zone
deriving Repr, DecidableEq

/-- Zone lookup by id. -/
def findZone (st : R53State) (zid : String) : Option Zone :=
  st.zones.find? fun z => z.zoneId == zid

/-- Rows of the zone listing: per-zone tag fetch, failures skipped, then
the CreatedBy filter. -/
def zonesListRows (cfg : Config) (st : R53State) : List Zone :=
  st.zones.filter fun z =>
    match z.tagsResult with
    | .error _ => false
    | .ok tags => dictGet tags "CreatedBy" == some cfg.tagCreatedBy

/-- CLI route53 list: list zones, fetch tags per zone, skip per-zone
failures, filter by CreatedBy; per-item failures never surface. -/
def cliZonesList (cfg : Config) (st : R53State) : ListOut Zone :=
  { rows := zonesListRows cfg st
    result := .ok
    events := .call .listHostedZones ::
      st.zones.map fun z => .call (.listTagsForResource z.zoneId) }

/-- UI zone table: same per-zone tag fetch with skipped failures and the
same CreatedBy filter as the CLI listing. -/
def uiZoneRows (cfg : Config) (st : R53State) : List Zone :=
  st.zones.filter fun z =>
    match z.tagsResult with
    | .error _ => false
    | .ok tags => dictGet tags "CreatedBy" == some cfg.tagCreatedBy

/-- Two record sets collide exactly when name and type agree; the provider
keys record sets by this pair. -/
def sameKey (a b : RecordSet) : Bool :=
  a.rname == b.rname && a.rtype == b.rtype

/-- Provider semantics of an UPSERT change: replace the record set with the
same name and type if present, else insert; never a duplicate. -/
def applyUpsert (records : List RecordSet) (rs : RecordSet) : List RecordSet :=
  records.filter (fun r => !(sameKey r rs)) ++ [rs]

/-- Provider semantics of a DELETE change: the supplied record set must
exactly match a live one (name, type, time to live and values); otherwise
the change is rejected with an error. -/
def applyDelete (records : List RecordSet) (rs : RecordSet) :
    Except String (List RecordSet) :=
  if rs ∈ records then
    .ok (records.filter fun r => !(r == rs))
  else
    .error "the values provided do not match the current values"

/-- Replace the record list of one zone. -/
def setZoneRecords (st : R53State) (zid : String) (rs : List RecordSet) : R53State :=
  { zones := st.zones.map fun z =>
      if z.zoneId == zid then { z with records := rs } else z }

/-- CLI add-record: fetch the zone tags (a fetch failure aborts), refuse
unless CreatedBy matches, fetch the zone name, build the full record name
from subdomain and zone name, then issue an UPSERT of a type A record with
time to live 300. -/
def cliAddRecord (cfg : Config) (st : R53State) (zid subdomain ip : String) :
    Outcome R53State :=
  match findZone st zid with
  | none =>
      { result := .providerErr "NoSuchHostedZone"
        events := [.call (.listTagsForResource zid)], state := st }
  | some z =>
      match z.tagsResult with
      | .error e =>
          { result := .providerErr e
            events := [.call (.listTagsForResource zid)], state := st }
      | .ok tags =>
          if !(isManaged cfg tags) then
            { result := .notManaged zid
              events := [.call (.listTagsForResource zid)], state := st }
          else
            let rs : RecordSet :=
              { rname := subdomain ++ "." ++ z.zoneName, rtype := "A",
                ttl := 300, rvalues := [ip] }
            { result := .ok
              events := [.call (.listTagsForResource zid),
                         .call (.getHostedZone zid),
                         .call (.changeRecordSets zid (.upsert rs))]
              state := setZoneRecords st zid (applyUpsert z.records rs) }

/-- CLI delete-record: same guard and name construction as add-record, then
a DELETE change that always carries type A and a hardcoded time to live of
300; a provider rejection is surfaced as an error. -/
def cliDeleteRecord (cfg : Config) (st : R53State) (zid subdomain ip : String) :
    Outcome R53State :=
  match findZone st zid with
  | none =>
      { result := .providerErr "NoSuchHostedZone"
        events := [.call (.listTagsForResource zid)], state := st }
  | some z =>
      match z.tagsResult with
      | .error e =>
          { result := .providerErr e
            events := [.call (.listTagsForResource zid)], state := st }
      | .ok tags =>
          if !(isManaged cfg tags) then
            { result := .notManaged zid
              events := [.call (.listTagsForResource zid)], state := st }
          else
            let rs : RecordSet :=
              { rname := subdomain ++ "." ++ z.zoneName, rtype := "A",
                ttl := 300, rvalues := [ip] }
            match applyDelete z.records rs with
            | .ok newRecords =>
                { result := .ok
                  events := [.call (.listTagsForResource zid),
                             .call (.getHostedZone zid),
                             .call (.changeRecordSets zid (.delete rs))]
                  state := setZoneRecords st zid newRecords }
            | .error e =>
                { result := .providerErr e
                  events := [.call (.listTagsForResource zid),
                             .call (.getHostedZone zid),
                             .call (.changeRecordSets zid (.delete rs))]
                  state := st }

/-- UI Add Record handler: builds the full name from the selected zone and
issues the UPSERT directly, with no tag fetch and no guard. -/
def uiAddRecord (st : R53State) (targetZoneId targetZoneName sub ip : String) :
    Outcome R53State :=
  let rs : RecordSet :=
    { rname := sub ++ "." ++ targetZoneName, rtype := "A",
      ttl := 300, rvalues := [ip] }
  match findZone st targetZoneId with
  | some z =>
      { result := .ok
        events := [.call (.changeRecordSets targetZoneId (.upsert rs))]
        state := setZoneRecords st targetZoneId (applyUpsert z.records rs) }
  | none =>
      { result := .providerErr "NoSuchHostedZone"
        events := [.call (.changeRecordSets targetZoneId (.upsert rs))]
        state := st }

/-- UI Delete button handler: issues the DELETE directly for the listed
record, with no tag fetch and no guard, using the listed name, time to
live and value. -/
def uiDeleteRecord (st : R53State) (targetZoneId : String) (rec : RecordSet) :
    Outcome R53State :=
  match findZone st targetZoneId with
  | some z =>
      match applyDelete z.records rec with
      | .ok newRecords =>
          { result := .ok
            events := [.call (.changeRecordSets targetZoneId (.delete rec))]
            state := setZoneRecords st targetZoneId newRecords }
      | .error e =>
          { result := .providerErr e
            events := [.call (.changeRecordSets targetZoneId (.delete rec))]
            state := st }
  | none =>
      { result := .providerErr "NoSuchHostedZone"
        events := [.call (.changeRecordSets targetZoneId (.delete rec))]
        state := st }

/-- Looking a key up after appending one binding: the appended binding wins
when its key matches, and is invisible otherwise. -/
theorem dictGet_append_single (l : Tags) (k v key : String) :
    dictGet (l ++ [(k, v)]) key = if k = key then some v else dictGet l key := by
  simp [dictGet, List.foldl_append]

/-- The state filter of the quota count accepts exactly the non-terminated
states of the five-state lifecycle. -/
theorem nonTerminated_eq_not_terminated (s : InstState) :
    nonTerminated s = !(s == .terminated) := by
  cases s <;> rfl

/-- C2: the isManaged predicate used for list filtering and mutation
guarding holds exactly when the CreatedBy entry of the tag dict equals the
configured tool identifier; an empty tag set is not managed, and adding or
overriding any other tag, Owner included, never changes the result. -/
theorem C2_isManaged_characterisation (cfg : Config) (tags : Tags) :
    (isManaged cfg tags = true ↔ dictGet tags "CreatedBy" = some cfg.tagCreatedBy)
    ∧ isManaged cfg [] = false
    ∧ ∀ k v, k ≠ "CreatedBy" →
        isManaged cfg (tags ++ [(k, v)]) = isManaged cfg tags := by
  refine ⟨?_, ?_, ?_⟩
  · simp [isManaged]
  · simp [isManaged, dictGet]
  · intro k v hk
    simp [isManaged, dictGet_append_single, hk]

/-- Witness for C2: a tag set carrying the tool identifier stays managed
when an Owner tag is appended. -/
theorem C2_isManaged_characterisation_witness :
    isManaged defaultConfig ([("CreatedBy", "platform-cli")] ++ [("Owner", "alice")])
      = isManaged defaultConfig [("CreatedBy", "platform-cli")] :=
  (C2_isManaged_characterisation defaultConfig [("CreatedBy", "platform-cli")]).2.2
    "Owner" "alice" (by decide)

/-- C9: the quota count of the create command is exactly the number of
instances whose CreatedBy tag equals the tool identifier and whose state is
not terminated; it is unchanged when every Owner tag is overridden with an
arbitrary value, and a create call against a state holding two managed
instances owned by arbitrary other users is refused with QuotaExceeded. -/
theorem C9_quota_counting (cfg : Config) (st : Ec2State) (w : String) :
    countManaged cfg st
      = (st.instances.filter fun i =>
          isManaged cfg i.tags && !(i.state == .terminated)).length
    ∧ countManaged cfg
        { instances := st.instances.map fun i =>
            { i with tags := i.tags ++ [("Owner", w)] } }
      = countManaged cfg st
    ∧ ∀ o1 o2 kname nm newId,
        (cliEc2Create cfg
          { instances :=
              [{ instId := "i-a", instType := "t3.micro", keyName := "k",
                 state := .running,
                 tags := [("CreatedBy", cfg.tagCreatedBy), ("Owner", o1)],
                 publicIp := none },
               { instId := "i-b", instType := "t3.micro", keyName := "k",
                 state := .stopped,
                 tags := [("CreatedBy", cfg.tagCreatedBy), ("Owner", o2)],
                 publicIp := none }] }
          (.ok "ami-1") (.ok newId) "t3.micro" kname nm).result = .quotaExceeded := by
  refine ⟨?_, ?_, ?_⟩
  · simp [countManaged, isManaged, nonTerminated_eq_not_terminated]
  · simp only [countManaged, List.filter_map, List.length_map]
    congr 1
    apply List.filter_congr
    intro i _
    simp [Function.comp, dictGet_append_single]
  · intro o1 o2 kname nm newId
    simp [cliEc2Create, countManaged, dictGet, nonTerminated, allowedTypes, maxInstances]

/-- C6: a storage create call with the public flag set whose interactive
confirmation is declined issues zero provider calls, creates no bucket and
reports a cancellation, in the CLI as well as in the UI form. -/
theorem C6_public_declined (cfg : Config) (stS : S3State) (nm : String) :
    callsOf (cliS3Create cfg stS nm true false).events = []
    ∧ (cliS3Create cfg stS nm true false).state = stS
    ∧ (cliS3Create cfg stS nm true false).result = .cancelled
    ∧ (uiS3Create cfg stS nm true false).events = []
    ∧ (uiS3Create cfg stS nm true false).state = stS := by
  refine ⟨?_, ?_, ?_, ?_, ?_⟩
  · simp [cliS3Create, callsOf]
  · simp [cliS3Create]
  · simp [cliS3Create]
  · by_cases hnm : nm = "" <;> simp [uiS3Create, hnm]
  · by_cases hnm : nm = "" <;> simp [uiS3Create, hnm]

/-- Fixture for C4: two managed, non-terminated instances. -/
def c4St : Ec2State :=
  { instances :=
      [{ instId := "i-a", instType := "t3.micro", keyName := "k",
         state := .running,
         tags := [("CreatedBy", "platform-cli"), ("Owner", "student")],
         publicIp := none },
       { instId := "i-b", instType := "t3.micro", keyName := "k",
         state := .stopped,
         tags := [("CreatedBy", "platform-cli"), ("Owner", "student")],
         publicIp := none }] }

/-- C4 counterexample: with two managed non-terminated instances, the CLI
create refuses with QuotaExceeded but still issues one provider call (the
tag-and-state filtered describe used for counting), so the trace is not
empty; and the UI launch form performs no quota check at all and issues
the creating call. -/
theorem C4_counterexample :
    countManaged defaultConfig c4St = 2
    ∧ (cliEc2Create defaultConfig c4St (.ok "ami-1") (.ok "i-c")
        "t3.micro" "k" "web").result = .quotaExceeded
    ∧ (cliEc2Create defaultConfig c4St (.ok "ami-1") (.ok "i-c")
        "t3.micro" "k" "web").events ≠ []
    ∧ (uiLaunchInstance defaultConfig c4St (.ok "ami-1") (.ok "i-c")
        "t3.micro" "k" "web").result = .ok
    ∧ Event.call (.runInstances "ami-1" "t3.micro" "k"
        [("Name", "web"), ("CreatedBy", "platform-cli"), ("Owner", "student")])
      ∈ (uiLaunchInstance defaultConfig c4St (.ok "ami-1") (.ok "i-c")
        "t3.micro" "k" "web").events := by
  decide

/-- C4 amended: a CLI compute create call with an allowed size class made
while the managed non-terminated count has reached the cap fails with
QuotaExceeded, leaves the state unchanged and issues no mutating call and
no creation call; the only provider call issued is the single non-mutating
describe used for counting. The UI launch form performs no quota check. -/
theorem C4_quota_refusal (cfg : Config) (st : Ec2State)
    (ssm run : Except String String) (itype kname nm : String)
    (hA : allowedTypes.contains itype = true)
    (hQ : maxInstances ≤ countManaged cfg st) :
    (cliEc2Create cfg st ssm run itype kname nm).result = .quotaExceeded
    ∧ (cliEc2Create cfg st ssm run itype kname nm).events
        = [.call (.describeByTagAndState cfg.tagCreatedBy)]
    ∧ mutatingCalls (cliEc2Create cfg st ssm run itype kname nm).events = []
    ∧ (cliEc2Create cfg st ssm run itype kname nm).state = st := by
  have hA2 : itype ∈ allowedTypes := by simpa using hA
  simp [cliEc2Create, hA2, hQ, mutatingCalls, callsOf, ProviderCall.isMutating]

/-- Witness for C4 amended at the two-instance fixture. -/
theorem C4_quota_refusal_witness :
    (cliEc2Create defaultConfig c4St (.ok "ami-1") (.ok "i-c")
      "t3.micro" "k" "web").result = .quotaExceeded :=
  (C4_quota_refusal defaultConfig c4St (.ok "ami-1") (.ok "i-c")
    "t3.micro" "k" "web" (by decide) (by decide)).1

/-- C7: every row of every listing, in the CLI and in the UI, belongs to a
resource whose fetched tags satisfy isManaged, and the compute listings
never contain a terminated instance. -/
theorem C7_listing_scope (cfg : Config) (stE : Ec2State) (stS : S3State)
    (stR : R53State) :
    (∀ i ∈ (cliEc2List cfg stE).rows,
        isManaged cfg i.tags = true ∧ i.state ≠ .terminated)
    ∧ (∀ b ∈ (cliS3List cfg stS).rows,
        ∃ tags, b.tagsResult = .ok tags ∧ isManaged cfg tags = true)
    ∧ (∀ z ∈ (cliZonesList cfg stR).rows,
        ∃ tags, z.tagsResult = .ok tags ∧ isManaged cfg tags = true)
    ∧ (∀ i ∈ uiEc2Rows cfg stE,
        isManaged cfg i.tags = true ∧ i.state ≠ .terminated)
    ∧ (∀ b ∈ uiBucketRows cfg stS,
        ∃ tags, b.tagsResult = .ok tags ∧ isManaged cfg tags = true)
    ∧ (∀ z ∈ uiZoneRows cfg stR,
        ∃ tags, z.tagsResult = .ok tags ∧ isManaged cfg tags = true) := by
  have hE : ∀ i ∈ (stE.instances.filter fun i =>
        dictGet i.tags "CreatedBy" == some cfg.tagCreatedBy).filter
        (fun i => !(i.state == .terminated)),
      isManaged cfg i.tags = true ∧ i.state ≠ .terminated := by
    intro i hi
    rw [List.mem_filter] at hi
    obtain ⟨hi1, hi2⟩ := hi
    rw [List.mem_filter] at hi1
    refine ⟨?_, ?_⟩
    · simpa [isManaged] using hi1.2
    · simpa using hi2
  have hS : ∀ b ∈ stS.buckets.filter (fun b =>
        match b.tagsResult with
        | .error _ => false
        | .ok tags => dictGet tags "CreatedBy" == some cfg.tagCreatedBy),
      ∃ tags, b.tagsResult = .ok tags ∧ isManaged cfg tags = true := by
    intro b hb
    rw [List.mem_filter] at hb
    obtain ⟨-, hb2⟩ := hb
    cases htr : b.tagsResult with
    | error e => rw [htr] at hb2; simp at hb2
    | ok tags =>
        rw [htr] at hb2
        exact ⟨tags, rfl, by simpa [isManaged] using hb2⟩
  have hR : ∀ z ∈ stR.zones.filter (fun z =>
        match z.tagsResult with
        | .error _ => false
        | .ok tags => dictGet tags "CreatedBy" == some cfg.tagCreatedBy),
      ∃ tags, z.tagsResult = .ok tags ∧ isManaged cfg tags = true := by
    intro z hz
    rw [List.mem_filter] at hz
    obtain ⟨-, hz2⟩ := hz
    cases htr : z.tagsResult with
    | error e => rw [htr] at hz2; simp at hz2
    | ok tags =>
        rw [htr] at hz2
        exact ⟨tags, rfl, by simpa [isManaged] using hz2⟩
  exact ⟨hE, hS, hR, hE, hS, hR⟩

/-- Fixture for C7: a managed running instance next to unmanaged and
terminated ones, a managed bucket and a managed zone. -/
def c7Ec2 : Ec2State :=
  { instances :=
      [{ instId := "i-live", instType := "t3.micro", keyName := "k",
         state := .running,
         tags := [("CreatedBy", "platform-cli"), ("Owner", "student")],
         publicIp := none },
       { instId := "i-gone", instType := "t3.micro", keyName := "k",
         state := .terminated,
         tags := [("CreatedBy", "platform-cli"), ("Owner", "student")],
         publicIp := none },
       { instId := "i-foreign", instType := "t3.micro", keyName := "k",
         state := .running, tags := [("CreatedBy", "console")],
         publicIp := none }] }

/-- Fixture for C7: one managed bucket. -/
def c7Bucket : Bucket :=
  { bname := "ours", creationDate := 1,
    tagsResult := .ok [("CreatedBy", "platform-cli"), ("Owner", "student")],
    publicBlocked := true }

/-- Fixture for C7: the storage state holding just that bucket. -/
def c7S3 : S3State := { buckets := [c7Bucket] }

/-- Fixture for C7: one managed zone. -/
def c7R53 : R53State :=
  { zones :=
      [{ zoneId := "Z1", zoneName := "example.com.",
         tagsResult := .ok [("CreatedBy", "platform-cli"), ("Owner", "student")],
         records := [] }] }

/-- Witness for C7 at concrete listings holding one row each. -/
theorem C7_listing_scope_witness :
    ∃ tags, c7Bucket.tagsResult = .ok tags
      ∧ isManaged defaultConfig tags = true :=
  (C7_listing_scope defaultConfig c7Ec2 c7S3 c7R53).2.1 c7Bucket (by decide)

/-- C8: in the fan-out listings over buckets and zones, an item whose tag
fetch fails is excluded, every item whose tag fetch succeeds with managed
tags is returned, and the listing still reports success, so the per-item
failure is never surfaced. -/
theorem C8_fanout_lenient (cfg : Config) (stS : S3State) (stR : R53State) :
    (∀ b ∈ stS.buckets, ∀ e, b.tagsResult = .error e →
        b ∉ (cliS3List cfg stS).rows)
    ∧ (∀ b ∈ stS.buckets, ∀ tags, b.tagsResult = .ok tags →
        isManaged cfg tags = true → b ∈ (cliS3List cfg stS).rows)
    ∧ (cliS3List cfg stS).result = .ok
    ∧ (∀ z ∈ stR.zones, ∀ e, z.tagsResult = .error e →
        z ∉ (cliZonesList cfg stR).rows)
    ∧ (∀ z ∈ stR.zones, ∀ tags, z.tagsResult = .ok tags →
        isManaged cfg tags = true → z ∈ (cliZonesList cfg stR).rows)
    ∧ (cliZonesList cfg stR).result = .ok := by
  refine ⟨?_, ?_, rfl, ?_, ?_, rfl⟩
  · intro b hb e he hmem
    rw [show (cliS3List cfg stS).rows = s3ListRows cfg stS from rfl,
        s3ListRows, List.mem_filter, he] at hmem
    simp at hmem
  · intro b hb tags ht hm
    rw [show (cliS3List cfg stS).rows = s3ListRows cfg stS from rfl,
        s3ListRows, List.mem_filter, ht]
    exact ⟨hb, by simpa [isManaged] using hm⟩
  · intro z hz e he hmem
    rw [show (cliZonesList cfg stR).rows = zonesListRows cfg stR from rfl,
        zonesListRows, List.mem_filter, he] at hmem
    simp at hmem
  · intro z hz tags ht hm
    rw [show (cliZonesList cfg stR).rows = zonesListRows cfg stR from rfl,
        zonesListRows, List.mem_filter, ht]
    exact ⟨hz, by simpa [isManaged] using hm⟩

/-- Fixture for C8: a bucket whose tag fetch fails. -/
def c8Broken : Bucket :=
  { bname := "broken", creationDate := 1,
    tagsResult := .error "NoSuchTagSet", publicBlocked := true }

/-- Fixture for C8: a managed bucket. -/
def c8Ours : Bucket :=
  { bname := "ours", creationDate := 2,
    tagsResult := .ok [("CreatedBy", "platform-cli"), ("Owner", "student")],
    publicBlocked := true }

/-- Fixture for C8: the failing bucket next to the managed one. -/
def c8S3 : S3State := { buckets := [c8Broken, c8Ours] }

/-- Fixture for C8: one zone whose tag fetch fails next to a managed one. -/
def c8R53 : R53State :=
  { zones :=
      [{ zoneId := "Zbad", zoneName := "bad.example.",
         tagsResult := .error "AccessDenied", records := [] },
       { zoneId := "Z1", zoneName := "example.com.",
         tagsResult := .ok [("CreatedBy", "platform-cli"), ("Owner", "student")],
         records := [] }] }

/-- Witness for C8: the failing bucket is excluded while the managed one is
still returned. -/
theorem C8_fanout_lenient_witness :
    c8Broken ∉ (cliS3List defaultConfig c8S3).rows
    ∧ c8Ours ∈ (cliS3List defaultConfig c8S3).rows :=
  ⟨(C8_fanout_lenient defaultConfig c8S3 c8R53).1 c8Broken
      (by decide) "NoSuchTagSet" (by decide),
   (C8_fanout_lenient defaultConfig c8S3 c8R53).2.1 c8Ours
      (by decide) [("CreatedBy", "platform-cli"), ("Owner", "student")]
      (by decide) (by decide)⟩

/-- Fixture for C1: an existing instance whose CreatedBy tag carries a
different tool identifier. -/
def c1Inst : Inst :=
  { instId := "i-x", instType := "t3.micro", keyName := "k",
    state := .running, tags := [("CreatedBy", "other-tool")], publicIp := none }

/-- Fixture for C1: the compute state holding just that instance. -/
def c1Ec2 : Ec2State := { instances := [c1Inst] }

/-- Fixture for C1: an existing zone whose CreatedBy tag carries a
different tool identifier. -/
def c1Zone : Zone :=
  { zoneId := "Z9", zoneName := "example.com.",
    tagsResult := .ok [("CreatedBy", "other-tool")], records := [] }

/-- Fixture for C1: the DNS state holding just that zone. -/
def c1R53 : R53State := { zones := [c1Zone] }

/-- C1 counterexample: the UI Stop button, applied to an existing instance
whose tags do not carry the configured CreatedBy value, issues the mutating
stop call as its only event — no tag fetch happens first — and does not
fail with a NotManaged error, contradicting the claim for the UI front
end. -/
theorem C1_counterexample :
    isManaged defaultConfig c1Inst.tags = false
    ∧ findInst c1Ec2 "i-x" = some c1Inst
    ∧ (uiStop c1Ec2 "i-x").events = [.call (.stopInstances "i-x")]
    ∧ ProviderCall.isMutating (.stopInstances "i-x") = true
    ∧ (uiStop c1Ec2 "i-x").result ≠ .notManaged "i-x" := by
  decide

/-- C1 amended: in the CLI, every mutate or delete operation on an existing
resource (compute start, stop, terminate; DNS add-record, delete-record)
first fetches the current tags and, when they do not carry the configured
CreatedBy value, fails with a NotManaged error having issued only the
single read call; the UI management handlers instead issue the mutating
call directly, with no tag fetch and no NotManaged path — their only
protection is that the selection widgets are populated from the managed
listings. -/
theorem C1_guard_amended (cfg : Config) (stE : Ec2State) (stR : R53State)
    (iid zid zname sub ip : String) (b : Bool) (rec : RecordSet) :
    (∀ inst, findInst stE iid = some inst → isManaged cfg inst.tags = false →
        (cliStop cfg stE iid).result = .notManaged iid
        ∧ (cliStop cfg stE iid).events = [.call (.describeById iid)]
        ∧ (cliStop cfg stE iid).state = stE)
    ∧ (∀ inst, findInst stE iid = some inst → isManaged cfg inst.tags = false →
        (cliStart cfg stE iid).result = .notManaged iid
        ∧ (cliStart cfg stE iid).events = [.call (.describeById iid)]
        ∧ (cliStart cfg stE iid).state = stE)
    ∧ (∀ inst, findInst stE iid = some inst → isManaged cfg inst.tags = false →
        (cliTerminate cfg stE iid b).result = .notManaged iid
        ∧ (cliTerminate cfg stE iid b).events = [.call (.describeById iid)]
        ∧ (cliTerminate cfg stE iid b).state = stE)
    ∧ (∀ z tags, findZone stR zid = some z → z.tagsResult = .ok tags →
        isManaged cfg tags = false →
        (cliAddRecord cfg stR zid sub ip).result = .notManaged zid
        ∧ (cliAddRecord cfg stR zid sub ip).events
            = [.call (.listTagsForResource zid)]
        ∧ (cliAddRecord cfg stR zid sub ip).state = stR)
    ∧ (∀ z tags, findZone stR zid = some z → z.tagsResult = .ok tags →
        isManaged cfg tags = false →
        (cliDeleteRecord cfg stR zid sub ip).result = .notManaged zid
        ∧ (cliDeleteRecord cfg stR zid sub ip).events
            = [.call (.listTagsForResource zid)]
        ∧ (cliDeleteRecord cfg stR zid sub ip).state = stR)
    ∧ (uiStop stE iid).events = [.call (.stopInstances iid)]
    ∧ (uiStart stE iid).events = [.call (.startInstances iid)]
    ∧ (uiTerminate stE iid).events = [.call (.terminateInstances iid)]
    ∧ callsOf (uiAddRecord stR zid zname sub ip).events
        = [.changeRecordSets zid (.upsert
            { rname := sub ++ "." ++ zname, rtype := "A",
              ttl := 300, rvalues := [ip] })]
    ∧ callsOf (uiDeleteRecord stR zid rec).events
        = [.changeRecordSets zid (.delete rec)] := by
  refine ⟨?_, ?_, ?_, ?_, ?_, rfl, rfl, rfl, ?_, ?_⟩
  · intro inst h hm
    simp [cliStop, h, hm]
  · intro inst h hm
    simp [cliStart, h, hm]
  · intro inst h hm
    simp [cliTerminate, h, hm]
  · intro z tags hz ht hm
    simp [cliAddRecord, hz, ht, hm]
  · intro z tags hz ht hm
    simp [cliDeleteRecord, hz, ht, hm]
  · cases hfz : findZone stR zid <;> simp [uiAddRecord, hfz, callsOf]
  · cases hfz : findZone stR zid with
    | none => simp [uiDeleteRecord, hfz, callsOf]
    | some z =>
        cases had : applyDelete z.records rec <;>
          simp [uiDeleteRecord, hfz, had, callsOf]

/-- Witness for C1 amended: each guarded CLI operation refuses the
unmanaged fixture resource with a NotManaged error. -/
theorem C1_guard_amended_witness :
    (cliStop defaultConfig c1Ec2 "i-x").result = .notManaged "i-x"
    ∧ (cliStart defaultConfig c1Ec2 "i-x").result = .notManaged "i-x"
    ∧ (cliTerminate defaultConfig c1Ec2 "i-x" true).result = .notManaged "i-x"
    ∧ (cliAddRecord defaultConfig c1R53 "Z9" "www" "1.2.3.4").result
        = .notManaged "Z9"
    ∧ (cliDeleteRecord defaultConfig c1R53 "Z9" "www" "1.2.3.4").result
        = .notManaged "Z9" :=
  ⟨((C1_guard_amended defaultConfig c1Ec2 c1R53 "i-x" "Z9" "example.com."
      "www" "1.2.3.4" true { rname := "n", rtype := "A", ttl := 300, rvalues := [] }).1
      c1Inst (by decide) (by decide)).1,
   ((C1_guard_amended defaultConfig c1Ec2 c1R53 "i-x" "Z9" "example.com."
      "www" "1.2.3.4" true { rname := "n", rtype := "A", ttl := 300, rvalues := [] }).2.1
      c1Inst (by decide) (by decide)).1,
   ((C1_guard_amended defaultConfig c1Ec2 c1R53 "i-x" "Z9" "example.com."
      "www" "1.2.3.4" true { rname := "n", rtype := "A", ttl := 300, rvalues := [] }).2.2.1
      c1Inst (by decide) (by decide)).1,
   ((C1_guard_amended defaultConfig c1Ec2 c1R53 "i-x" "Z9" "example.com."
      "www" "1.2.3.4" true { rname := "n", rtype := "A", ttl := 300, rvalues := [] }).2.2.2.1
      c1Zone [("CreatedBy", "other-tool")] (by decide) (by decide) (by decide)).1,
   ((C1_guard_amended defaultConfig c1Ec2 c1R53 "i-x" "Z9" "example.com."
      "www" "1.2.3.4" true { rname := "n", rtype := "A", ttl := 300, rvalues := [] }).2.2.2.2.1
      c1Zone [("CreatedBy", "other-tool")] (by decide) (by decide) (by decide)).1⟩

/-- Fixture for C5: a managed running instance. -/
def c5Inst : Inst :=
  { instId := "i-1", instType := "t3.micro", keyName := "k",
    state := .running,
    tags := [("CreatedBy", "platform-cli"), ("Owner", "student")],
    publicIp := none }

/-- Fixture for C5: the compute state holding just that instance. -/
def c5St : Ec2State := { instances := [c5Inst] }

/-- C5 counterexample: the UI Terminate button issues the irreversible
terminate call as its only event, with no confirmation prompt anywhere in
the trace, contradicting the claim for the UI front end. -/
theorem C5_counterexample :
    (uiTerminate c5St "i-1").events = [.call (.terminateInstances "i-1")]
    ∧ hasPrompt (uiTerminate c5St "i-1").events = false
    ∧ ProviderCall.isMutating (.terminateInstances "i-1") = true := by
  decide

/-- C5 amended: in the CLI, declining the terminate confirmation aborts
with no mutating call and an unchanged state, and the terminate call is
only ever issued after a positively answered prompt; the UI Terminate
button issues the call immediately, with no confirmation prompt. -/
theorem C5_terminate_confirmation (cfg : Config) (st : Ec2State)
    (iid : String) (b : Bool) :
    mutatingCalls (cliTerminate cfg st iid false).events = []
    ∧ (cliTerminate cfg st iid false).state = st
    ∧ (Event.call (.terminateInstances iid) ∈ (cliTerminate cfg st iid b).events →
        b = true
        ∧ Event.prompt "Are you sure?" true ∈ (cliTerminate cfg st iid b).events)
    ∧ (uiTerminate st iid).events = [.call (.terminateInstances iid)]
    ∧ hasPrompt (uiTerminate st iid).events = false := by
  refine ⟨?_, ?_, ?_, rfl, rfl⟩
  · cases hfz : findInst st iid with
    | none => simp [cliTerminate, hfz, mutatingCalls, callsOf, ProviderCall.isMutating]
    | some inst =>
        by_cases hm : isManaged cfg inst.tags = true <;>
          simp [cliTerminate, hfz, hm, mutatingCalls, callsOf, ProviderCall.isMutating]
  · cases hfz : findInst st iid with
    | none => simp [cliTerminate, hfz]
    | some inst =>
        by_cases hm : isManaged cfg inst.tags = true <;>
          simp [cliTerminate, hfz, hm]
  · intro hmem
    cases hfz : findInst st iid with
    | none => simp [cliTerminate, hfz] at hmem
    | some inst =>
        by_cases hm : isManaged cfg inst.tags = true
        · cases b with
          | false => simp [cliTerminate, hfz, hm] at hmem
          | true => exact ⟨rfl, by simp [cliTerminate, hfz, hm]⟩
        · simp [cliTerminate, hfz, hm] at hmem

/-- Witness for C5 amended: on the managed fixture with a positive answer,
the terminate call is present and so is the positively answered prompt. -/
theorem C5_terminate_confirmation_witness :
    true = true
    ∧ Event.prompt "Are you sure?" true
        ∈ (cliTerminate defaultConfig c5St "i-1" true).events :=
  (C5_terminate_confirmation defaultConfig c5St "i-1" true).2.2.1 (by decide)

/-- A record set collides with itself. -/
theorem sameKey_self (rs : RecordSet) : sameKey rs rs = true := by
  simp [sameKey]

/-- Filtering with a predicate after keeping only its complement yields
nothing. -/
theorem filter_not_self {α : Type} (p : α → Bool) (l : List α) :
    (l.filter fun x => !(p x)).filter p = [] := by
  induction l with
  | nil => rfl
  | cons a l ih => by_cases h : p a = true <;> simp [h, ih]

/-- Filtering twice with the same predicate equals filtering once. -/
theorem filter_idem_same {α : Type} (p : α → Bool) (l : List α) :
    (l.filter p).filter p = l.filter p := by
  induction l with
  | nil => rfl
  | cons a l ih => by_cases h : p a = true <;> simp [h, ih]

/-- An UPSERT followed by another UPSERT with the same name and type is the
same as the second alone: a replace, never a duplicate. -/
theorem applyUpsert_twice (l : List RecordSet) (a c : RecordSet)
    (h1 : a.rname = c.rname) (h2 : a.rtype = c.rtype) :
    applyUpsert (applyUpsert l a) c = applyUpsert l c := by
  have hfun : (fun r => !(sameKey r a)) = (fun r => !(sameKey r c)) := by
    funext r
    simp [sameKey, h1, h2]
  have hc : (!(sameKey a c)) = false := by
    simp [sameKey, h1, h2]
  unfold applyUpsert
  rw [List.filter_append, hfun, filter_idem_same]
  simp [hc]

/-- The records matching the name and type of an upserted record set are
exactly the upserted one. -/
theorem applyUpsert_key_filter (l : List RecordSet) (n t : String)
    (ttl : Nat) (vs : List String) :
    (applyUpsert l { rname := n, rtype := t, ttl := ttl, rvalues := vs }).filter
        (fun r => r.rname == n && r.rtype == t)
      = [{ rname := n, rtype := t, ttl := ttl, rvalues := vs }] := by
  have hfun : (fun r : RecordSet =>
      !(sameKey r { rname := n, rtype := t, ttl := ttl, rvalues := vs }))
      = fun r : RecordSet => !(r.rname == n && r.rtype == t) := rfl
  unfold applyUpsert
  rw [List.filter_append, hfun, filter_not_self]
  simp

/-- Zone lookup through the map that replaces the records of the matching
zone. -/
theorem find_map_set (zs : List Zone) (zid : String) (rs : List RecordSet) :
    (zs.map fun z => if z.zoneId == zid then { z with records := rs } else z).find?
        (fun z => z.zoneId == zid)
      = (zs.find? fun z => z.zoneId == zid).map fun z => { z with records := rs } := by
  induction zs with
  | nil => rfl
  | cons z zs ih =>
      obtain ⟨zi, zn, zt, zr⟩ := z
      by_cases h : zi = zid
      · simp [List.find?_cons, h]
      · have hb : ¬ ((Zone.mk zi zn zt zr).zoneId == zid) = true := by simpa using h
        simp only [List.map_cons]
        rw [if_neg hb,
            List.find?_cons_of_neg (p := fun z => z.zoneId == zid)
              (a := Zone.mk zi zn zt zr) _ hb,
            List.find?_cons_of_neg (p := fun z => z.zoneId == zid)
              (a := Zone.mk zi zn zt zr) _ hb]
        exact ih

/-- Looking a zone up after its records were replaced. -/
theorem findZone_setZoneRecords (st : R53State) (zid : String) (rs : List RecordSet) :
    findZone (setZoneRecords st zid rs) zid
      = (findZone st zid).map fun z => { z with records := rs } :=
  find_map_set st.zones zid rs

/-- Replacing the records of the same zone twice keeps only the second
replacement. -/
theorem map_set_overwrite (zs : List Zone) (zid : String) (rs1 rs2 : List RecordSet) :
    (zs.map fun z => if z.zoneId == zid then { z with records := rs1 } else z).map
        (fun z => if z.zoneId == zid then { z with records := rs2 } else z)
      = zs.map fun z => if z.zoneId == zid then { z with records := rs2 } else z := by
  rw [List.map_map]
  apply List.map_congr_left
  intro a ha
  obtain ⟨ai, an, te, ar⟩ := a
  by_cases h : ai = zid <;> simp [Function.comp, h]

/-- Setting the records of one zone twice equals setting them once with the
second value. -/
theorem setZoneRecords_overwrite (st : R53State) (zid : String)
    (rs1 rs2 : List RecordSet) :
    setZoneRecords (setZoneRecords st zid rs1) zid rs2 = setZoneRecords st zid rs2 :=
  congrArg R53State.mk (map_set_overwrite st.zones zid rs1 rs2)

/-- Evaluation of add-record on a managed zone: both reads, the UPSERT
change, a success result and the upserted zone state. -/
theorem cliAddRecord_managed (cfg : Config) (st : R53State)
    (zid sub ip : String) (z : Zone) (tags : Tags)
    (hz : findZone st zid = some z)
    (ht : z.tagsResult = Except.ok tags)
    (hm : isManaged cfg tags = true) :
    cliAddRecord cfg st zid sub ip
      = { result := .ok
          events := [.call (.listTagsForResource zid), .call (.getHostedZone zid),
                     .call (.changeRecordSets zid (.upsert
                       { rname := sub ++ "." ++ z.zoneName, rtype := "A",
                         ttl := 300, rvalues := [ip] }))]
          state := setZoneRecords st zid (applyUpsert z.records
            { rname := sub ++ "." ++ z.zoneName, rtype := "A",
              ttl := 300, rvalues := [ip] }) } := by
  simp [cliAddRecord, hz, ht, hm]

/-- C3: for a managed zone, addRecord issues an UPSERT of a type A record
named subdomain dot zone name with time to live 300; running it for the
same subdomain twice, the second time with another address, leaves exactly
one matching record holding the last address — a replace, never a
duplicate — and re-running with identical inputs reproduces the same final
state with no error. -/
theorem C3_addRecord_upsert (cfg : Config) (st : R53State)
    (zid sub ip1 ip2 : String) (z : Zone) (tags : Tags)
    (hz : findZone st zid = some z)
    (ht : z.tagsResult = Except.ok tags)
    (hm : isManaged cfg tags = true) :
    (cliAddRecord cfg st zid sub ip1).events
      = [.call (.listTagsForResource zid), .call (.getHostedZone zid),
         .call (.changeRecordSets zid (.upsert
           { rname := sub ++ "." ++ z.zoneName, rtype := "A",
             ttl := 300, rvalues := [ip1] }))]
    ∧ (cliAddRecord cfg st zid sub ip1).result = .ok
    ∧ (cliAddRecord cfg (cliAddRecord cfg st zid sub ip1).state zid sub ip2).result
        = .ok
    ∧ (∀ z2, findZone (cliAddRecord cfg (cliAddRecord cfg st zid sub ip1).state
          zid sub ip2).state zid = some z2 →
        z2.records.filter
            (fun r => r.rname == sub ++ "." ++ z.zoneName && r.rtype == "A")
          = [{ rname := sub ++ "." ++ z.zoneName, rtype := "A",
               ttl := 300, rvalues := [ip2] }])
    ∧ (cliAddRecord cfg (cliAddRecord cfg st zid sub ip1).state zid sub ip1).state
        = (cliAddRecord cfg st zid sub ip1).state := by
  have e1 := cliAddRecord_managed cfg st zid sub ip1 z tags hz ht hm
  have hstate1 : (cliAddRecord cfg st zid sub ip1).state
      = setZoneRecords st zid (applyUpsert z.records
          { rname := sub ++ "." ++ z.zoneName, rtype := "A",
            ttl := 300, rvalues := [ip1] }) := by
    rw [e1]
  have hfind1 : findZone (cliAddRecord cfg st zid sub ip1).state zid
      = some { z with
               records :=
                 applyUpsert z.records
                   { rname := sub ++ "." ++ z.zoneName, rtype := "A",
                     ttl := 300, rvalues := [ip1] } } := by
    rw [hstate1, findZone_setZoneRecords, hz]
    rfl
  have e2 := cliAddRecord_managed cfg (cliAddRecord cfg st zid sub ip1).state
    zid sub ip2 _ tags hfind1 ht hm
  have e3 := cliAddRecord_managed cfg (cliAddRecord cfg st zid sub ip1).state
    zid sub ip1 _ tags hfind1 ht hm
  refine ⟨?_, ?_, ?_, ?_, ?_⟩
  · rw [e1]
  · rw [e1]
  · rw [e2]
  · intro z2 h2
    have hstate2 : (cliAddRecord cfg (cliAddRecord cfg st zid sub ip1).state
        zid sub ip2).state
        = setZoneRecords (cliAddRecord cfg st zid sub ip1).state zid
            (applyUpsert (applyUpsert z.records
              { rname := sub ++ "." ++ z.zoneName, rtype := "A",
                ttl := 300, rvalues := [ip1] })
              { rname := sub ++ "." ++ z.zoneName, rtype := "A",
                ttl := 300, rvalues := [ip2] }) := by
      rw [e2]
    rw [hstate2, findZone_setZoneRecords, hfind1] at h2
    have hz2 : z2.records
        = applyUpsert (applyUpsert z.records
            { rname := sub ++ "." ++ z.zoneName, rtype := "A",
              ttl := 300, rvalues := [ip1] })
            { rname := sub ++ "." ++ z.zoneName, rtype := "A",
              ttl := 300, rvalues := [ip2] } := by
      cases h2
      rfl
    rw [hz2, applyUpsert_twice z.records
          { rname := sub ++ "." ++ z.zoneName, rtype := "A",
            ttl := 300, rvalues := [ip1] }
          { rname := sub ++ "." ++ z.zoneName, rtype := "A",
            ttl := 300, rvalues := [ip2] } rfl rfl,
        applyUpsert_key_filter]
  · have hstate2b : (cliAddRecord cfg (cliAddRecord cfg st zid sub ip1).state
        zid sub ip1).state
        = setZoneRecords (cliAddRecord cfg st zid sub ip1).state zid
            (applyUpsert (applyUpsert z.records
              { rname := sub ++ "." ++ z.zoneName, rtype := "A",
                ttl := 300, rvalues := [ip1] })
              { rname := sub ++ "." ++ z.zoneName, rtype := "A",
                ttl := 300, rvalues := [ip1] }) := by
      rw [e3]
    rw [hstate2b, applyUpsert_twice _ _ _ rfl rfl, hstate1,
        setZoneRecords_overwrite]

/-- Fixture for C3: an empty managed zone. -/
def c3Zone : Zone :=
  { zoneId := "Z1", zoneName := "example.com.",
    tagsResult := .ok [("CreatedBy", "platform-cli"), ("Owner", "student")],
    records := [] }

/-- Fixture for C3: the DNS state holding just that zone. -/
def c3St : R53State := { zones := [c3Zone] }

/-- Witness for C3: two adds for the same subdomain on the fixture zone
succeed and leave exactly one matching record holding the second address. -/
theorem C3_addRecord_upsert_witness :
    (cliAddRecord defaultConfig (cliAddRecord defaultConfig c3St "Z1" "www"
        "1.2.3.4").state "Z1" "www" "5.6.7.8").result = .ok
    ∧ ({ zoneId := "Z1", zoneName := "example.com.",
         tagsResult := .ok [("CreatedBy", "platform-cli"), ("Owner", "student")],
         records := [{ rname := "www.example.com.", rtype := "A",
                       ttl := 300, rvalues := ["5.6.7.8"] }] } : Zone).records.filter
        (fun r => r.rname == "www" ++ "." ++ c3Zone.zoneName && r.rtype == "A")
      = [{ rname := "www" ++ "." ++ c3Zone.zoneName, rtype := "A",
           ttl := 300, rvalues := ["5.6.7.8"] }] :=
  ⟨(C3_addRecord_upsert defaultConfig c3St "Z1" "www" "1.2.3.4" "5.6.7.8" c3Zone
      [("CreatedBy", "platform-cli"), ("Owner", "student")]
      (by decide) (by decide) (by decide)).2.2.1,
   (C3_addRecord_upsert defaultConfig c3St "Z1" "www" "1.2.3.4" "5.6.7.8" c3Zone
      [("CreatedBy", "platform-cli"), ("Owner", "student")]
      (by decide) (by decide) (by decide)).2.2.2.1
      { zoneId := "Z1", zoneName := "example.com.",
        tagsResult := .ok [("CreatedBy", "platform-cli"), ("Owner", "student")],
        records := [{ rname := "www.example.com.", rtype := "A",
                      ttl := 300, rvalues := ["5.6.7.8"] }] }
      (by decide)⟩

/-- C10: the CLI delete-record operation always sends a DELETE change of
type A with a hardcoded time to live of 300; against a managed zone whose
live record for that name has a different time to live, the delete is
rejected by the provider even though the supplied value matches the live
value, the error is surfaced to the caller and the state is unchanged. -/
theorem C10_delete_ttl_mismatch (cfg : Config) (st : R53State)
    (zid sub ip : String) (z : Zone) (tags : Tags) (r : RecordSet)
    (hz : findZone st zid = some z)
    (ht : z.tagsResult = Except.ok tags)
    (hm : isManaged cfg tags = true)
    (hr : r ∈ z.records)
    (hname : r.rname = sub ++ "." ++ z.zoneName)
    (htype : r.rtype = "A")
    (hval : r.rvalues = [ip])
    (httl : r.ttl ≠ 300)
    (huniq : ∀ r2 ∈ z.records, r2.rname = r.rname → r2.rtype = r.rtype → r2 = r) :
    (cliDeleteRecord cfg st zid sub ip).events
      = [.call (.listTagsForResource zid), .call (.getHostedZone zid),
         .call (.changeRecordSets zid (.delete
           { rname := sub ++ "." ++ z.zoneName, rtype := "A",
             ttl := 300, rvalues := [ip] }))]
    ∧ (∃ e, (cliDeleteRecord cfg st zid sub ip).result = .providerErr e)
    ∧ (cliDeleteRecord cfg st zid sub ip).state = st
    ∧ (∀ st2 zid2 sub2 ip2 ch,
        Event.call (.changeRecordSets zid2 ch)
          ∈ (cliDeleteRecord cfg st2 zid2 sub2 ip2).events →
        ∃ n, ch = .delete { rname := n, rtype := "A",
                            ttl := 300, rvalues := [ip2] }) := by
  have hnotmem :
      ({ rname := sub ++ "." ++ z.zoneName, rtype := "A",
         ttl := 300, rvalues := [ip] } : RecordSet) ∉ z.records := by
    intro hmem
    have heq := huniq _ hmem (by rw [hname]) (by rw [htype])
    have h300 : (300 : Nat) = r.ttl := congrArg RecordSet.ttl heq
    exact httl h300.symm
  have hdel : applyDelete z.records
      { rname := sub ++ "." ++ z.zoneName, rtype := "A",
        ttl := 300, rvalues := [ip] }
      = .error "the values provided do not match the current values" := by
    simp [applyDelete, hnotmem]
  refine ⟨?_, ?_, ?_, ?_⟩
  · simp [cliDeleteRecord, hz, ht, hm, hdel]
  · exact ⟨"the values provided do not match the current values",
      by simp [cliDeleteRecord, hz, ht, hm, hdel]⟩
  · simp [cliDeleteRecord, hz, ht, hm, hdel]
  · intro st2 zid2 sub2 ip2 ch hmem
    cases hfz : findZone st2 zid2 with
    | none => simp [cliDeleteRecord, hfz] at hmem
    | some z3 =>
        cases htr : z3.tagsResult with
        | error e => simp [cliDeleteRecord, hfz, htr] at hmem
        | ok tgs =>
            by_cases hg : isManaged cfg tgs = true
            · cases had : applyDelete z3.records
                { rname := sub2 ++ "." ++ z3.zoneName, rtype := "A",
                  ttl := 300, rvalues := [ip2] } with
              | ok nr =>
                  simp [cliDeleteRecord, hfz, htr, hg, had] at hmem
                  exact ⟨sub2 ++ "." ++ z3.zoneName, hmem⟩
              | error e =>
                  simp [cliDeleteRecord, hfz, htr, hg, had] at hmem
                  exact ⟨sub2 ++ "." ++ z3.zoneName, hmem⟩
            · simp [cliDeleteRecord, hfz, htr, hg] at hmem

/-- Fixture for C10: a managed zone whose live record has time to live 600. -/
def c10Rec : RecordSet :=
  { rname := "www.example.com.", rtype := "A", ttl := 600, rvalues := ["1.2.3.4"] }

/-- Fixture for C10: the managed zone holding that record. -/
def c10Zone : Zone :=
  { zoneId := "Z1", zoneName := "example.com.",
    tagsResult := .ok [("CreatedBy", "platform-cli"), ("Owner", "student")],
    records := [c10Rec] }

/-- Fixture for C10: the DNS state holding just that zone. -/
def c10St : R53State := { zones := [c10Zone] }

/-- Witness for C10: deleting the 600 time-to-live record with the matching
value is refused by the provider and the error is surfaced. -/
theorem C10_delete_ttl_mismatch_witness :
    ∃ e, (cliDeleteRecord defaultConfig c10St "Z1" "www" "1.2.3.4").result
      = .providerErr e :=
  (C10_delete_ttl_mismatch defaultConfig c10St "Z1" "www" "1.2.3.4" c10Zone
    [("CreatedBy", "platform-cli"), ("Owner", "student")] c10Rec
    (by decide) (by decide) (by decide) (by decide) (by decide) (by decide)
    (by decide) (by decide) (by decide)).2.1

end PlatformCli
